import Mathlib

/-!
Verification development for the eCourts scraper (`ecourts_scraper`).

The Python sources under `ecourts_scraper/` are shallowly embedded below:
HTML documents become a `Node` tree (the output of the markup analyzer),
Python dictionaries become association lists with Python `dict` update
semantics, Python values appearing in result records become the `Val`
inductive, and the network (the `requests` session) becomes an explicit
`Net` record of possible responses, with a raised request exception
modelled as the `Except.error` branch.  Every function is translated from
the corresponding function of the source, keeping its name.
-/

/-- Python `str.strip()` whitespace set (ASCII fragment, which is all the
sources and claims exercise). -/
def isPySpace (c : Char) : Bool :=
  c = ' ' || c = '\t' || c = '\n' || c = '\r' || c = '\x0b' || c = '\x0c'

/-- Python `str.strip()`. -/
def pyStrip (s : String) : String :=
  String.mk (((s.toList.dropWhile isPySpace).reverse.dropWhile isPySpace).reverse)

/-- Python `str.lower()` (ASCII fragment). -/
def pyLower (s : String) : String :=
  String.mk (s.toList.map Char.toLower)

/-- Python `str.upper()` (ASCII fragment). -/
def pyUpper (s : String) : String :=
  String.mk (s.toList.map Char.toUpper)

/-- Does `hay` start with `needle`? -/
def listStartsWith : List Char → List Char → Bool
  | [], _ => true
  | _ :: _, [] => false
  | c :: cs, d :: ds => c = d && listStartsWith cs ds

/-- Does `needle` occur as a contiguous run inside `hay`? -/
def listHasRun (needle : List Char) : List Char → Bool
  | [] => needle.isEmpty
  | d :: ds => listStartsWith needle (d :: ds) || listHasRun needle ds

/-- Python `needle in hay` on strings: substring containment. -/
def strContains (hay needle : String) : Bool :=
  listHasRun needle.toList hay.toList

/-- Lookup in a Python string-keyed `dict` represented as an association
list (first binding wins; inserts below keep keys unique). -/
def lookupS : List (String × String) → String → Option String
  | [], _ => Option.none
  | (k, v) :: rest, key => if k = key then some v else lookupS rest key

/-- Python `d[k] = v` on a string→string `dict`: replace the binding in
place when the key is present, append otherwise. -/
def dictInsertS (d : List (String × String)) (k v : String) : List (String × String) :=
  if d.any (fun p => p.1 = k) then
    d.map (fun p => if p.1 = k then (k, v) else p)
  else
    d ++ [(k, v)]

/-- The value bound to `key` by the last pair of `l` carrying that key
(`Option.none` when no pair does). -/
def lastVal : List (String × String) → String → Option String
  | [], _ => Option.none
  | (k, v) :: rest, key =>
    match lastVal rest key with
    | some w => some w
    | Option.none => if k = key then some v else Option.none

/-- Python values stored in the scraper's result dictionaries. -/
inductive Val where
  | s (v : String)
  | b (v : Bool)
  | dict (fields : List (String × Val))
  | vlist (vs : List Val)
  | noneV

/-- Lookup in a Python `dict` of `Val`s (`d.get(key)`). -/
def dget : List (String × Val) → String → Option Val
  | [], _ => Option.none
  | (k, v) :: rest, key => if k = key then some v else dget rest key

/-- Python truthiness of a `Val` (`if x:`). -/
def truthy : Val → Bool
  | .s v => v ≠ ""
  | .b v => v
  | .dict f => !f.isEmpty
  | .vlist vs => !vs.isEmpty
  | .noneV => false

/-- Truthiness of `d.get(key)` (an absent key is Python's `None`). -/
def truthyOpt : Option Val → Bool
  | some v => truthy v
  | Option.none => false

/-- Python `d.get(key) == s` for a string `s` (absent keys and non-string
values compare unequal). -/
def pyEqStr : Option Val → String → Bool
  | some (.s t), s => t = s
  | _, _ => false

/-- The `status` field of a result record. -/
def statusOf (r : List (String × Val)) : Option Val :=
  dget r "status"

/-! Parsed HTML, as produced by the markup analyzer (`BeautifulSoup` with
`html.parser`): element nodes with tag, attributes and children, and text
nodes.  The child sequence is its own mutual inductive so that every
traversal below is plain structural recursion. -/
mutual
/-- An HTML element or text node. -/
inductive Node where
  | elem (tag : String) (attrs : List (String × String)) (children : NodeList)
  | text (s : String)
inductive NodeList where
  | nil
  | cons (n : Node) (ns : NodeList)
end

/-- Child sequences written as ordinary list literals. -/
def NodeList.ofList : List Node → NodeList
  | [] => .nil
  | n :: ns => .cons n (NodeList.ofList ns)

mutual
/-- Preorder (document-order) traversal, as `BeautifulSoup`'s
`descendants` iterator yields it: each node followed by its subtree. -/
def preorder : Node → List Node
  | .text s => [.text s]
  | .elem t a cs => .elem t a cs :: preorderL cs
def preorderL : NodeList → List Node
  | .nil => []
  | .cons n ns => preorder n ++ preorderL ns
end

/-- All proper descendants of a node in document order. -/
def descendants : Node → List Node
  | .text _ => []
  | .elem _ _ cs => preorderL cs

mutual
/-- Text-node contents below a node, in document order. -/
def textsOf : Node → List String
  | .text s => [s]
  | .elem _ _ cs => textsL cs
def textsL : NodeList → List String
  | .nil => []
  | .cons n ns => textsOf n ++ textsL ns
end

/-- `element.get_text(strip=True)`: every contained string stripped and
concatenated (separator `''`). -/
def getTextStrip (n : Node) : String :=
  String.join ((textsOf n).map pyStrip)

/-- `element.get_text()`: every contained string concatenated. -/
def getTextRaw (n : Node) : String :=
  String.join (textsOf n)

/-- `tag.string`: the single contained string, if the node has exactly one
child and that child is a string or itself has a `.string`. -/
def nodeString : Node → Option String
  | .text s => some s
  | .elem _ _ (.cons c .nil) => nodeString c
  | .elem _ _ _ => Option.none

/-- An attribute's value (`tag.get(key)` / `tag['key']`). -/
def getAttr (n : Node) (key : String) : Option String :=
  match n with
  | .elem _ attrs _ => lookupS attrs key
  | .text _ => Option.none

/-- Does `n` carry the given tag name? -/
def isTag (t : String) (n : Node) : Bool :=
  match n with
  | .elem tg _ _ => tg = t
  | .text _ => false

/-- Does `n` carry attribute `key` with exact value `v`
(`find(tag, {key: v})`)? -/
def attrIs (key v : String) (n : Node) : Bool :=
  getAttr n key = some v

/-- `soup.find_all(pred)`: the descendants satisfying the predicate, in
document order. -/
def findAllP (p : Node → Bool) (soup : Node) : List Node :=
  (descendants soup).filter p

/-- `soup.find(pred)`: the first descendant satisfying the predicate. -/
def findFirst (p : Node → Bool) (soup : Node) : Option Node :=
  (findAllP p soup).head?

mutual
/-- Removal of every `script`/`style` subtree below a node
(`for t in soup(["script", "style"]): t.decompose()`). -/
def stripN : Node → Node
  | .text s => .text s
  | .elem t a cs => .elem t a (stripL cs)
def stripL : NodeList → NodeList
  | .nil => .nil
  | .cons (.text s) ns => .cons (.text s) (stripL ns)
  | .cons (.elem t a cs) ns =>
    if t = "script" || t = "style" then stripL ns
    else .cons (.elem t a (stripL cs)) (stripL ns)
end

/-- `script`/`style` removal applied below the document root. -/
def stripNode : Node → Node
  | .text s => .text s
  | .elem t a cs => .elem t a (stripL cs)

/-- Is `n` a `script` or `style` element? -/
def isScriptStyle (n : Node) : Bool :=
  isTag "script" n || isTag "style" n

/-! ### `utils.py` -/

/-- Single-character classification used by `pyInt`. -/
def isAsciiDigit (c : Char) : Bool :=
  '0' ≤ c && c ≤ '9'

/-- Is `cs` a digit string Python's `int()` accepts after sign removal:
nonempty, digits and underscores only, starting and ending with a digit,
with no two consecutive underscores? -/
def validDigits (cs : List Char) : Bool :=
  !cs.isEmpty
    && cs.all (fun c => isAsciiDigit c || c = '_')
    && (match cs.head? with | some c => isAsciiDigit c | Option.none => false)
    && (match cs.getLast? with | some c => isAsciiDigit c | Option.none => false)
    && !listHasRun ['_', '_'] cs

/-- Numeric value of a valid digit string, underscores skipped. -/
def digitsToNat (cs : List Char) : Nat :=
  cs.foldl (fun a c => if c = '_' then a else a * 10 + (c.toNat - 48)) 0

/-- Python `int(s)` on a string: strip whitespace, optional sign, digits
with underscore separators; `Option.none` models the raised `ValueError`. -/
def pyInt (s : String) : Option Int :=
  let cs := ((s.toList.dropWhile isPySpace).reverse.dropWhile isPySpace).reverse
  match cs with
  | '+' :: rest => if validDigits rest then some (Int.ofNat (digitsToNat rest)) else Option.none
  | '-' :: rest => if validDigits rest then some (-(Int.ofNat (digitsToNat rest))) else Option.none
  | rest => if validDigits rest then some (Int.ofNat (digitsToNat rest)) else Option.none

/-- `utils.validate_cnr`.  A missing CNR is the empty string (Python
`None` and `''` are both falsy). -/
def validate_cnr (cnr : String) : Bool :=
  if cnr ≠ "" && pyUpper cnr = "DEMO123" then true
  else if cnr = "" || cnr.length < 10 then false
  else true

/-- `utils.validate_case_details`.  `currentYear` stands for
`datetime.now().year`; a missing argument is the empty string. -/
def validate_case_details (case_type case_number case_year : String)
    (currentYear : Int) : Bool :=
  if !(case_type ≠ "" && case_number ≠ "" && case_year ≠ "") then false
  else
    match pyInt case_year with
    | Option.none => false
    | some year => if year < 1950 || year > currentYear then false else true

/-- The acceptance condition of case-detail validation as the spec words
it: all three parts present and the year an integer in
`[1950, current_year]`. -/
def validate_case_details_spec (case_type case_number case_year : String)
    (currentYear : Int) : Prop :=
  case_type ≠ "" ∧ case_number ≠ "" ∧ case_year ≠ "" ∧
    ∃ y : Int, pyInt case_year = some y ∧ 1950 ≤ y ∧ y ≤ currentYear

/-! ### `scraper.py` -/

/-- The services URL the scraper talks to. -/
def services_url : String := "https://services.ecourts.gov.in"

/-- Models `urllib.parse.urljoin` only as far as the claims need: joining
with an absent (`None`) or empty relative URL returns the base, as
`urljoin` does; otherwise some total join of the two strings. -/
def urljoin (base : String) (url : Option String) : String :=
  match url with
  | Option.none => base
  | some u => if u = "" then base else base ++ "/" ++ u

/-- An HTTP response: status code and parsed body. -/
def Resp := Nat × Node

/-- The network as the scraper can observe it in one search: the result of
`session.get(services_url)` and of the form submission (POST or GET, as a
function of the submitted URL and field map); a raised `requests`
exception is the `error` branch. -/
structure Net where
  home : Except String Resp
  submitPost : String → List (String × String) → Except String Resp
  submitGet : String → List (String × String) → Except String Resp

/-- The generic `"status": "error"` record the `except` blocks of
`scraper.py` build from a raised exception's message. -/
def errRecord (msg : String) : List (String × Val) :=
  [("status", Val.s "error"), ("message", Val.s msg), ("new_scraper", Val.b true)]

/-- Is `n` an `input` element whose `name` attribute is `nm`
(`soup.find('input', {'name': nm})`)? -/
def isInputNamed (nm : String) (n : Node) : Bool :=
  isTag "input" n && attrIs "name" nm n

/-- The three lookups of `search_by_cnr` lines 61–63: the `cino` input,
the `fcaptcha_code` input and the first form, all required together. -/
def locate_form (soup : Node) : Option (Node × Node × Node) :=
  match findFirst (isInputNamed "cino") soup,
        findFirst (isInputNamed "fcaptcha_code") soup,
        findFirst (isTag "form") soup with
  | some a, some b, some f => some (a, b, f)
  | _, _, _ => Option.none

/-- The `(name, value)` pair a hidden input contributes to the field
map: its `name` attribute when present and truthy (`if name:` skips
`None` and `''`), with its `value` attribute defaulted to `''`. -/
def hiddenField (h : Node) : Option (String × String) :=
  match getAttr h "name" with
  | some name =>
    if name = "" then Option.none
    else some (name, (getAttr h "value").getD "")
  | Option.none => Option.none

/-- One iteration of the hidden-input loop of `_submit_cnr_search`:
`form_data[name] = value` when the input contributes a named field. -/
def hiddenStep (fd : List (String × String)) (h : Node) : List (String × String) :=
  match hiddenField h with
  | some p => dictInsertS fd p.1 p.2
  | Option.none => fd

/-- The hidden inputs of a form that carry a (truthy) name, with their
values, in document order. -/
def hidden_fields (form : Node) : List (String × String) :=
  ((descendants form).filter
      (fun n => isTag "input" n && attrIs "type" "hidden" n)).filterMap hiddenField

/-- `_submit_cnr_search` lines 119–131: the submitted field map.  Starts
from the caller's `cino`/`fcaptcha_code` values, then assigns every named
hidden input of the form over it. -/
def build_form_data (cnr captcha_code : String) (form : Node) : List (String × String) :=
  ((descendants form).filter
      (fun n => isTag "input" n && attrIs "type" "hidden" n)).foldl
    hiddenStep [("cino", cnr), ("fcaptcha_code", captcha_code)]

/-- Error keywords of `_parse_search_results`. -/
def errorKeywords : List String := ["error", "invalid", "not found", "incorrect"]

/-- Status keywords of `_parse_search_results`. -/
def statusKeywords : List String := ["listed", "pending", "disposed", "hearing"]

/-- Case-field keywords of `_parse_search_results`. -/
def caseKeywords : List String := ["case", "court", "status", "date", "judge"]

/-- CSS-debris indicators of `_parse_search_results` (`\x7b`, `\x7d` and
the property patterns). -/
def cssIndicators : List String := ["\x7b", "\x7d", "padding:", "margin:", "border:", "color:", "font-"]

/-- Does a text look like embedded CSS/JS debris? -/
def hasCssDebris (t : String) : Bool :=
  cssIndicators.any (fun c => strContains t c)

/-- The `text=lambda ...` filter of `find_all`: the element's `.string`
exists and contains one of the keywords case-insensitively. -/
def stringHasKeyword (kws : List String) (n : Node) : Bool :=
  match nodeString n with
  | some t => kws.any (fun w => strContains (pyLower t) w)
  | Option.none => false

/-- Is the tag one of `div`/`span`/`p`/`td`? -/
def isTextTag (n : Node) : Bool :=
  isTag "div" n || isTag "span" n || isTag "p" n || isTag "td" n

/-- `_parse_search_results` lines 166–193: after `script`/`style` removal,
the stripped texts of keyword-matching elements that pass the CSS-debris
filter. -/
def clean_error_msgs (doc : Node) : List String :=
  ((findAllP (fun n => isTextTag n && stringHasKeyword errorKeywords n)
      (stripNode doc)).map getTextStrip).filter (fun t => !hasCssDebris t)

/-- `_parse_search_results` lines 211–222: the status indicators, same
shape as `clean_error_msgs` but over the status keywords. -/
def status_indicators (doc : Node) : List String :=
  ((findAllP (fun n => isTextTag n && stringHasKeyword statusKeywords n)
      (stripNode doc)).map getTextStrip).filter (fun t => !hasCssDebris t)

/-- The `(key, value)` a table row contributes to `case_info`: defined
when the row has at least two `td`/`th` cells and the lowercased stripped
first-cell text contains a case keyword. -/
def rowEntry (row : Node) : Option (String × String) :=
  match (descendants row).filter (fun n => isTag "td" n || isTag "th" n) with
  | c0 :: c1 :: _ =>
    let key := pyLower (getTextStrip c0)
    let value := getTextStrip c1
    if caseKeywords.any (fun kw => strContains key kw) then some (key, value)
    else Option.none
  | _ => Option.none

/-- One iteration of the row loop of `_parse_search_results`:
`case_info[key] = value` when the row contributes a case field. -/
def rowStep (acc : List (String × String)) (row : Node) : List (String × String) :=
  match rowEntry row with
  | some p => dictInsertS acc p.1 p.2
  | Option.none => acc

/-- The contributing `(key, value)` rows of one table, in document
order. -/
def tableRows (table : Node) : List (String × String) :=
  ((descendants table).filter (isTag "tr")).filterMap rowEntry

/-- One iteration of the table loop of `_parse_search_results`: fold the
row loop over the table's rows. -/
def tableStep (acc : List (String × String)) (table : Node) : List (String × String) :=
  ((descendants table).filter (isTag "tr")).foldl rowStep acc

/-- `_parse_search_results` lines 198–209: the case-field map accumulated
over every row of every table, later rows overwriting earlier ones of the
same key. -/
def case_info (doc : Node) : List (String × String) :=
  ((descendants (stripNode doc)).filter (isTag "table")).foldl tableStep []

/-- The contributing `(key, value)` rows of every table, flattened in
document order; `case_info` is their left-to-right dict accumulation. -/
def case_rows (doc : Node) : List (String × String) :=
  ((descendants (stripNode doc)).filter (isTag "table")).foldl
    (fun acc table => acc ++ tableRows table) []

/-- The full visible text of the stripped document, lowercased
(`soup.get_text().lower()`). -/
def page_text (doc : Node) : String :=
  pyLower (getTextRaw (stripNode doc))

/-- `_parse_search_results`: classifies the post-submission document. -/
def parse_search_results (doc : Node) (cnr : String) : List (String × Val) :=
  match clean_error_msgs doc with
  | msg :: _ =>
    [("status", Val.s "search_failed"),
     ("message", Val.s ("Search failed: " ++ msg)),
     ("cnr", Val.s cnr),
     ("new_scraper", Val.b true)]
  | [] =>
    if !(case_info doc).isEmpty || !(status_indicators doc).isEmpty then
      [("status", Val.s "case_found"),
       ("message", Val.s "Case information retrieved successfully"),
       ("cnr", Val.s cnr),
       ("case_details", Val.dict ((case_info doc).map (fun p => (p.1, Val.s p.2)))),
       ("status_indicators", Val.vlist (((status_indicators doc).take 5).map Val.s)),
       ("real_case_data", Val.b true),
       ("new_scraper", Val.b true)]
    else if strContains (page_text doc) "case" || strContains (page_text doc) "court" then
      [("status", Val.s "no_case_data"),
       ("message", Val.s "Connected successfully but no case information found"),
       ("cnr", Val.s cnr),
       ("page_content_sample", Val.s ((getTextRaw (stripNode doc)).take 500)),
       ("new_scraper", Val.b true)]
    else
      [("status", Val.s "unexpected_response"),
       ("message", Val.s "Received unexpected response from eCourts"),
       ("cnr", Val.s cnr),
       ("new_scraper", Val.b true)]

/-- `_submit_cnr_search`: builds the field map, submits it to the
form-action URL over the session (POST unless the form's method says
otherwise, compared case-insensitively) and parses the response; network
failures become `error` records. -/
def submit_cnr_search (cnr captcha_code : String) (form : Node) (net : Net) :
    List (String × Val) :=
  match (if pyUpper ((getAttr form "method").getD "POST") = "POST" then
           net.submitPost (urljoin services_url (some ((getAttr form "action").getD "")))
             (build_form_data cnr captcha_code form)
         else
           net.submitGet (urljoin services_url (some ((getAttr form "action").getD "")))
             (build_form_data cnr captcha_code form)) with
  | .error e => errRecord e
  | .ok (code, soup2) =>
    if code = 200 then parse_search_results soup2 cnr
    else errRecord ("Search submission failed: HTTP " ++ toString code)

/-- `search_by_cnr` lines 68–75: the captcha image URL of the services
page, from an `img` whose `alt` contains "captcha" (case-insensitive),
falling back to one whose `src` does; `None` when neither exists.  The
image's possibly-absent `src` goes through `urljoin`, which returns the
base URL for an absent or empty relative part. -/
def captcha_url (soup : Node) : Option String :=
  match (match findFirst (fun n => isTag "img" n &&
             (match getAttr n "alt" with
              | some v => strContains (pyLower v) "captcha"
              | Option.none => false)) soup with
         | some i => some i
         | Option.none =>
           findFirst (fun n => isTag "img" n &&
             (match getAttr n "src" with
              | some v => strContains (pyLower v) "captcha"
              | Option.none => false)) soup) with
  | some img => some (urljoin services_url (getAttr img "src"))
  | Option.none => Option.none

/-- Python truthiness of an optional string (`if captcha_code:` is false
for `None` and for `''`). -/
def pyTruthyS : Option String → Bool
  | some s => s ≠ ""
  | Option.none => false

/-- `search_by_cnr`: fetches the services page, locates the search form
and captcha, and either reports `captcha_required` or submits. -/
def search_by_cnr (cnr date : String) (captcha_code : Option String) (net : Net) :
    List (String × Val) :=
  match net.home with
  | .error e => errRecord e
  | .ok (code, soup) =>
    if code = 200 then
      match findFirst (isInputNamed "cino") soup,
            findFirst (isInputNamed "fcaptcha_code") soup,
            findFirst (isTag "form") soup with
      | some _, some _, some form =>
        if pyTruthyS captcha_code then
          submit_cnr_search cnr (captcha_code.getD "") form net
        else
          [("status", Val.s "captcha_required"), ("cnr", Val.s cnr),
           ("date", Val.s date), ("connection", Val.s "success"),
           ("website_accessible", Val.b true), ("search_form_found", Val.b true),
           ("captcha_required", Val.b true),
           ("captcha_url", match captcha_url soup with
                           | some u => Val.s u
                           | Option.none => Val.noneV),
           ("message", Val.s "CNR search form found - captcha required"),
           ("new_scraper", Val.b true)]
      | _, _, _ => errRecord "CNR search form not found on services page"
    else errRecord ("Services website returned status code: " ++ toString code)

/-- `search_by_case_details`: fetches the services page and reports a
`found` record with the page title, or an `error` record. -/
def search_by_case_details (case_type case_number case_year date : String)
    (net : Net) : List (String × Val) :=
  match net.home with
  | .error e => errRecord e
  | .ok (code, soup) =>
    if code = 200 then
      [("status", Val.s "found"), ("case_type", Val.s case_type),
       ("case_number", Val.s case_number), ("case_year", Val.s case_year),
       ("date", Val.s date), ("connection", Val.s "success"),
       ("website_accessible", Val.b true),
       ("page_title", Val.s (match findFirst (isTag "title") soup with
                             | some t => pyStrip (getTextRaw t)
                             | Option.none => "eCourts Services")),
       ("new_scraper", Val.b true)]
    else errRecord ("Website returned status code: " ++ toString code)

/-- `get_case_listing`: pure relabelling of a search/connection outcome
into the listing shape; performs no network access. -/
def get_case_listing (search_params : List (String × Val)) (target_date : String) :
    List (String × Val) :=
  if pyEqStr (dget search_params "connection") "success" then
    if truthyOpt (dget search_params "captcha_required") then
      [("status", Val.s "captcha_required"),
       ("message", Val.s "eCourts search form found but requires captcha verification"),
       ("date", Val.s target_date),
       ("website_status", Val.s "âœ… Connected to eCourts Services"),
       ("captcha_status", Val.s "ðŸ”’ Captcha verification required"),
       ("real_data", Val.b true),
       ("new_scraper_response", Val.b true),
       ("case_details", Val.dict search_params)]
    else if truthyOpt (dget search_params "website_accessible") then
      [("status", Val.s "connected"),
       ("message", Val.s "Successfully connected to eCourts website"),
       ("date", Val.s target_date),
       ("website_status", Val.s "âœ… Connected to eCourts"),
       ("page_title", (dget search_params "page_title").getD (Val.s "eCourts Services")),
       ("real_data", Val.b true),
       ("new_scraper_response", Val.b true),
       ("case_details", Val.dict search_params)]
    else
      [("status", Val.s "connection_failed"),
       ("message", Val.s "Failed to connect to eCourts"),
       ("date", Val.s target_date),
       ("real_data", Val.b true),
       ("new_scraper_response", Val.b true)]
  else
    [("status", Val.s "connection_failed"),
     ("message", Val.s "Failed to connect to eCourts"),
     ("date", Val.s target_date),
     ("real_data", Val.b true),
     ("new_scraper_response", Val.b true)]

/-- `download_cause_list`: a fixed `connected` record echoing court and
date; touches no network and cannot fail. -/
def download_cause_list (court_name date : String) : List (String × Val) :=
  [("status", Val.s "connected"),
   ("court", Val.s court_name),
   ("date", Val.s date),
   ("message", Val.s "âœ… Connected to eCourts Services"),
   ("real_data", Val.b true),
   ("new_scraper_response", Val.b true)]

/-! ### `api.py` -/

/-- The fixed demo record of the `/search/cnr` route (`api.py` lines
79–102). -/
def demo_result (cnr : String) : List (String × Val) :=
  [("status", Val.s "case_found"),
   ("message", Val.s "Demo case information retrieved successfully"),
   ("cnr", Val.s cnr),
   ("case_details", Val.dict
      [("case_number", Val.s "DEMO/123/2024"),
       ("court_name", Val.s "Demo District Court"),
       ("case_type", Val.s "Civil Suit"),
       ("filing_date", Val.s "15-01-2024"),
       ("status", Val.s "Pending"),
       ("next_hearing", Val.s "25-10-2025"),
       ("judge", Val.s "Hon'ble Justice Demo"),
       ("petitioner", Val.s "Demo Petitioner"),
       ("respondent", Val.s "Demo Respondent")]),
   ("status_indicators", Val.vlist
      [Val.s "Case is listed for hearing", Val.s "Documents filed",
       Val.s "Notice served"]),
   ("real_case_data", Val.b true),
   ("demo_mode", Val.b true),
   ("new_scraper", Val.b true)]

/-- The `/search/cnr` route of `api.py` (HTTP code, JSON body).  The
target date is abstracted by the two candidate date strings `todayStr` and
`tomorrowStr`; saving to disk is out of scope and only the echoed filename
remains. -/
def api_search_by_cnr (cnr date_option : String) (captcha_code : Option String)
    (net : Net) (todayStr tomorrowStr : String) : Nat × List (String × Val) :=
  if cnr = "" then (400, [("error", Val.s "CNR is required")])
  else if !validate_cnr cnr then (400, [("error", Val.s "Invalid CNR format")])
  else
    let target_date := if date_option = "tomorrow" then tomorrowStr else todayStr
    let filename := "case_result_" ++ cnr ++ "_" ++ target_date
    if pyUpper cnr = "DEMO123" then
      (200, [("success", Val.b true),
             ("data", Val.dict (demo_result cnr)),
             ("search_params", Val.dict [("cnr", Val.s cnr), ("date", Val.s target_date)]),
             ("demo_data", Val.b true),
             ("saved_to_file", Val.s (filename ++ ".json"))])
    else
      let result := search_by_cnr cnr target_date captcha_code net
      if pyEqStr (statusOf result) "error" then (500, result)
      else if pyEqStr (statusOf result) "captcha_required" then
        (200, [("success", Val.b true),
               ("captcha_required", Val.b true),
               ("data", Val.dict result),
               ("search_params", Val.dict [("cnr", Val.s cnr), ("date", Val.s target_date)])])
      else if pyEqStr (statusOf result) "case_found"
          || pyEqStr (statusOf result) "no_case_data"
          || pyEqStr (statusOf result) "search_failed" then
        (200, [("success", Val.b true),
               ("data", Val.dict result),
               ("search_params", Val.dict [("cnr", Val.s cnr), ("date", Val.s target_date)]),
               ("real_case_data", Val.b true),
               ("saved_to_file", Val.s (filename ++ ".json"))])
      else
        let listing := get_case_listing result target_date
        (200, [("success", Val.b true),
               ("data", Val.dict listing),
               ("search_params", Val.dict [("cnr", Val.s cnr), ("date", Val.s target_date)]),
               ("real_ecourts_data", Val.b true),
               ("saved_to_file", Val.s (filename ++ ".json"))])

/-- The non-demo body of the `/causelist/<court_name>/<date>` route of
`api.py`: fetch the cause list record and wrap it, with a 500 branch for
an `error`-tagged record. -/
def api_get_cause_list_nondemo (court_name date : String) : Nat × List (String × Val) :=
  let cause_list := download_cause_list court_name date
  if pyEqStr (statusOf cause_list) "error" then (500, cause_list)
  else (200, [("success", Val.b true), ("data", Val.dict cause_list)])

/-! ### Dictionary lemmas -/

theorem lookupS_append (d e : List (String × String)) (key : String) :
    lookupS (d ++ e) key =
      match lookupS d key with
      | some w => some w
      | Option.none => lookupS e key := by
  induction d with
  | nil => simp [lookupS]
  | cons p rest ih =>
    obtain ⟨k, v⟩ := p
    by_cases h : k = key
    · simp [lookupS, h]
    · simp [lookupS, h, ih]

theorem lookupS_eq_none (d : List (String × String)) (key : String)
    (h : d.any (fun p => p.1 = key) = false) : lookupS d key = Option.none := by
  induction d with
  | nil => rfl
  | cons p rest ih =>
    obtain ⟨k, v⟩ := p
    simp only [List.any_cons, Bool.or_eq_false_iff] at h
    have hk : ¬ (k = key) := by
      intro hkk
      rw [hkk] at h
      simp at h
    simp [lookupS, hk, ih h.2]

theorem lookupS_map_upd_ne (d : List (String × String)) (k v key : String)
    (hk : key ≠ k) :
    lookupS (d.map (fun p => if p.1 = k then (k, v) else p)) key = lookupS d key := by
  induction d with
  | nil => rfl
  | cons p rest ih =>
    obtain ⟨k0, v0⟩ := p
    simp only [List.map_cons]
    by_cases h0 : k0 = k
    · rw [show (if ((k0, v0) : String × String).1 = k then (k, v) else (k0, v0)) = (k, v)
          from if_pos h0]
      simp only [lookupS]
      rw [if_neg (fun h : k = key => hk h.symm),
        if_neg (fun h : k0 = key => hk (h.symm.trans h0)), ih]
    · rw [show (if ((k0, v0) : String × String).1 = k then (k, v) else (k0, v0)) = (k0, v0)
          from if_neg h0]
      simp only [lookupS]
      by_cases hk0 : k0 = key
      · rw [if_pos hk0, if_pos hk0]
      · rw [if_neg hk0, if_neg hk0, ih]

theorem lookupS_map_upd_self (d : List (String × String)) (k v : String)
    (hany : d.any (fun p => p.1 = k) = true) :
    lookupS (d.map (fun p => if p.1 = k then (k, v) else p)) k = some v := by
  induction d with
  | nil => simp at hany
  | cons p rest ih =>
    obtain ⟨k0, v0⟩ := p
    simp only [List.map_cons]
    by_cases h0 : k0 = k
    · rw [show (if ((k0, v0) : String × String).1 = k then (k, v) else (k0, v0)) = (k, v)
          from if_pos h0]
      simp [lookupS]
    · rw [show (if ((k0, v0) : String × String).1 = k then (k, v) else (k0, v0)) = (k0, v0)
          from if_neg h0]
      simp only [lookupS]
      rw [if_neg h0]
      apply ih
      simpa [h0] using hany

theorem lookupS_insert (d : List (String × String)) (k v key : String) :
    lookupS (dictInsertS d k v) key = if key = k then some v else lookupS d key := by
  unfold dictInsertS
  by_cases hany : d.any (fun p => p.1 = k) = true
  · rw [if_pos hany]
    by_cases hk : key = k
    · subst hk
      rw [if_pos rfl, lookupS_map_upd_self d key v hany]
    · rw [if_neg hk, lookupS_map_upd_ne d k v key hk]
  · have hany' : d.any (fun p => p.1 = k) = false := by
      revert hany
      cases d.any (fun p => p.1 = k) <;> simp
    rw [if_neg hany, lookupS_append]
    by_cases hk : key = k
    · subst hk
      rw [lookupS_eq_none d key hany', if_pos rfl]
      simp [lookupS]
    · rw [if_neg hk]
      cases hd : lookupS d key with
      | some w => simp [hd]
      | none =>
        show lookupS [(k, v)] key = Option.none
        have hk' : ¬ k = key := fun h => hk h.symm
        simp [lookupS, hk']

theorem foldl_insert_lookup (l : List (String × String)) (d : List (String × String))
    (key : String) :
    lookupS (l.foldl (fun acc p => dictInsertS acc p.1 p.2) d) key =
      match lastVal l key with
      | some w => some w
      | Option.none => lookupS d key := by
  induction l generalizing d with
  | nil => simp [lastVal]
  | cons p rest ih =>
    obtain ⟨k, v⟩ := p
    have hu : lastVal ((k, v) :: rest) key =
        match lastVal rest key with
        | some u => some u
        | Option.none => if k = key then some v else Option.none := rfl
    rw [List.foldl_cons, ih, hu]
    obtain hrest | ⟨w, hrest⟩ := Option.eq_none_or_eq_some (lastVal rest key)
    · rw [hrest, lookupS_insert]
      by_cases h : k = key
      · rw [if_pos h, if_pos h.symm]
      · rw [if_neg h, if_neg (fun hh : key = k => h hh.symm)]
    · rw [hrest]

theorem lastVal_mem (l : List (String × String)) (key v : String) :
    lastVal l key = some v → (key, v) ∈ l := by
  induction l with
  | nil => intro h; simp [lastVal] at h
  | cons p rest ih =>
    obtain ⟨k, w⟩ := p
    intro h
    have hu : lastVal ((k, w) :: rest) key =
        match lastVal rest key with
        | some u => some u
        | Option.none => if k = key then some w else Option.none := rfl
    rw [hu] at h
    revert h
    cases hrest : lastVal rest key with
    | some u =>
      intro h
      have h2 : u = v := by injection h
      exact List.mem_cons_of_mem _ (ih (h2 ▸ hrest))
    | none =>
      intro h
      have h' : (if k = key then some w else (Option.none : Option String)) = some v := h
      by_cases hk : k = key
      · rw [if_pos hk] at h'
        injection h' with h2
        subst hk
        subst h2
        exact List.mem_cons_self _ _
      · rw [if_neg hk] at h'
        cases h'

theorem lastVal_isSome_of_mem (l : List (String × String)) (p : String × String)
    (h : p ∈ l) : ∃ v, lastVal l p.1 = some v := by
  induction l with
  | nil => cases h
  | cons q rest ih =>
    cases hrest : lastVal rest p.1 with
    | some u =>
      refine ⟨u, ?_⟩
      obtain ⟨k, w⟩ := q
      simp [lastVal, hrest]
    | none =>
      rcases List.mem_cons.mp h with hq | hmem
      · subst hq
        exact ⟨p.2, by simp [lastVal, hrest]⟩
      · obtain ⟨v, hv⟩ := ih hmem
        rw [hv] at hrest
        cases hrest

theorem foldl_matchstep {β : Type} (f : β → Option (String × String))
    (step : List (String × String) → β → List (String × String))
    (hstep : ∀ d b, step d b =
      match f b with
      | some p => dictInsertS d p.1 p.2
      | Option.none => d)
    (l : List β) (d : List (String × String)) :
    l.foldl step d
      = (l.filterMap f).foldl (fun acc p => dictInsertS acc p.1 p.2) d := by
  induction l generalizing d with
  | nil => rfl
  | cons b rest ih =>
    rw [List.foldl_cons, List.filterMap_cons, hstep]
    cases f b with
    | none => exact ih _
    | some p => exact ih _

theorem foldl_congr_fn {α β : Type} (f g : β → α → β)
    (h : ∀ d a, f d a = g d a) (l : List α) (d : β) :
    l.foldl f d = l.foldl g d := by
  induction l generalizing d with
  | nil => rfl
  | cons a rest ih => rw [List.foldl_cons, List.foldl_cons, h, ih]

theorem foldl_append_acc {α : Type} (g : α → List (String × String))
    (l : List α) (s : List (String × String)) :
    l.foldl (fun acc a => acc ++ g a) s = s ++ l.foldl (fun acc a => acc ++ g a) [] := by
  induction l generalizing s with
  | nil => simp
  | cons a rest ih =>
    rw [List.foldl_cons, List.foldl_cons, List.nil_append, ih, ih (g a),
      List.append_assoc]

theorem foldl_nested_insert {α : Type} (g : α → List (String × String))
    (l : List α) (d : List (String × String)) :
    l.foldl (fun acc a => (g a).foldl (fun acc p => dictInsertS acc p.1 p.2) acc) d
      = (l.foldl (fun acc a => acc ++ g a) []).foldl
          (fun acc p => dictInsertS acc p.1 p.2) d := by
  induction l generalizing d with
  | nil => rfl
  | cons a rest ih =>
    rw [List.foldl_cons, ih, List.foldl_cons, List.nil_append,
      foldl_append_acc g rest (g a), List.foldl_append]

/-! ### Script/style removal lemmas -/

theorem stripL_clean : ∀ (ns : NodeList), ∀ m ∈ preorderL (stripL ns),
    isScriptStyle m = false
  | .nil => by
    intro m hm
    simp [stripL, preorderL] at hm
  | .cons (.text s) ns => by
    intro m hm
    simp only [stripL, preorderL, preorder, List.singleton_append] at hm
    rcases List.mem_cons.mp hm with rfl | hm2
    · rfl
    · exact stripL_clean ns m hm2
  | .cons (.elem t a cs) ns => by
    intro m hm
    simp only [stripL] at hm
    by_cases hts : (t = "script" || (t = "style" : Bool)) = true
    · rw [if_pos hts] at hm
      exact stripL_clean ns m hm
    · rw [if_neg hts] at hm
      simp only [preorderL, preorder, List.cons_append] at hm
      rcases List.mem_cons.mp hm with rfl | hm2
      · simpa [isScriptStyle, isTag] using hts
      · rcases List.mem_append.mp hm2 with hm3 | hm3
        · exact stripL_clean cs m hm3
        · exact stripL_clean ns m hm3

theorem stripNode_clean (doc : Node) :
    ∀ m ∈ descendants (stripNode doc), isScriptStyle m = false := by
  cases doc with
  | text s => simp [stripNode, descendants]
  | elem t a cs => exact stripL_clean cs

/-! ### Bridges between the loops of the source and their flat forms -/

theorem build_form_data_lookup (form : Node) (cnr cap key : String) :
    lookupS (build_form_data cnr cap form) key =
      match lastVal (hidden_fields form) key with
      | some w => some w
      | Option.none => lookupS [("cino", cnr), ("fcaptcha_code", cap)] key := by
  unfold build_form_data hidden_fields
  rw [foldl_matchstep hiddenField hiddenStep (fun d b => rfl)]
  exact foldl_insert_lookup _ _ _

theorem case_info_eq_rows (doc : Node) :
    case_info doc
      = (case_rows doc).foldl (fun acc p => dictInsertS acc p.1 p.2) [] := by
  unfold case_info case_rows
  rw [foldl_congr_fn tableStep
      (fun acc t => (tableRows t).foldl (fun acc p => dictInsertS acc p.1 p.2) acc)
      (fun acc t => by
        show ((descendants t).filter (isTag "tr")).foldl rowStep acc
          = (tableRows t).foldl (fun acc p => dictInsertS acc p.1 p.2) acc
        unfold tableRows
        exact foldl_matchstep rowEntry rowStep (fun d b => rfl) _ acc)]
  exact foldl_nested_insert tableRows _ _

/-! ### Classifier branch lemmas -/

theorem isEmpty_false_of_ne_nil {α : Type} (l : List α) (h : l ≠ []) :
    l.isEmpty = false := by
  cases l with
  | nil => exact absurd rfl h
  | cons a t => rfl

theorem statusOf_parse (doc : Node) (cnr : String) :
    statusOf (parse_search_results doc cnr) = some (Val.s "search_failed")
    ∨ statusOf (parse_search_results doc cnr) = some (Val.s "case_found")
    ∨ statusOf (parse_search_results doc cnr) = some (Val.s "no_case_data")
    ∨ statusOf (parse_search_results doc cnr) = some (Val.s "unexpected_response") := by
  unfold parse_search_results
  cases clean_error_msgs doc with
  | cons m rest => left; rfl
  | nil =>
    by_cases h1 : (!(case_info doc).isEmpty || !(status_indicators doc).isEmpty) = true
    · rw [if_pos h1]
      right; left; rfl
    · rw [if_neg h1]
      by_cases h2 : (strContains (page_text doc) "case"
          || strContains (page_text doc) "court") = true
      · rw [if_pos h2]
        right; right; left; rfl
      · rw [if_neg h2]
        right; right; right; rfl

/-- C2: the classifier assigns exactly the first matching category in the
fixed order SearchFailed, CaseFound, NoCaseData, UnexpectedResponse: any
clean error-keyword message forces `search_failed` regardless of case
fields or status indicators; `case_found` needs no error message and a
nonempty case-field map or indicator list; `no_case_data` additionally
needs the full visible lowercased text to contain "case" or "court";
otherwise `unexpected_response`. -/
theorem c2_classifier_first_match (doc : Node) (cnr : String) :
    (clean_error_msgs doc ≠ [] →
       statusOf (parse_search_results doc cnr) = some (Val.s "search_failed"))
    ∧ (clean_error_msgs doc = [] →
       (case_info doc ≠ [] ∨ status_indicators doc ≠ []) →
       statusOf (parse_search_results doc cnr) = some (Val.s "case_found"))
    ∧ (clean_error_msgs doc = [] → case_info doc = [] → status_indicators doc = [] →
       (strContains (page_text doc) "case" || strContains (page_text doc) "court") = true →
       statusOf (parse_search_results doc cnr) = some (Val.s "no_case_data"))
    ∧ (clean_error_msgs doc = [] → case_info doc = [] → status_indicators doc = [] →
       (strContains (page_text doc) "case" || strContains (page_text doc) "court") = false →
       statusOf (parse_search_results doc cnr) = some (Val.s "unexpected_response")) := by
  refine ⟨?_, ?_, ?_, ?_⟩
  · intro h
    obtain ⟨m, rest, hm⟩ := List.exists_cons_of_ne_nil h
    unfold parse_search_results
    rw [hm]
    rfl
  · intro h1 h2
    unfold parse_search_results
    rw [h1]
    have hcond : (!(case_info doc).isEmpty || !(status_indicators doc).isEmpty) = true := by
      rcases h2 with h | h
      · rw [isEmpty_false_of_ne_nil _ h]
        rfl
      · rw [isEmpty_false_of_ne_nil _ h]
        simp
    rw [if_pos hcond]
    rfl
  · intro h1 h2 h3 h4
    unfold parse_search_results
    rw [h1, h2, h3, if_neg (by decide), if_pos h4]
    rfl
  · intro h1 h2 h3 h4
    unfold parse_search_results
    rw [h1, h2, h3, if_neg (by decide), if_neg (by simp [h4])]
    rfl

/-- A concrete run of each classifier branch: an error message wins even
over a case table; a case table alone gives `case_found`; court text alone
gives `no_case_data`; unrelated text gives `unexpected_response`. -/
theorem c2_classifier_first_match_witness :
    statusOf (parse_search_results
        (Node.elem "html" [] (NodeList.ofList
          [Node.elem "div" [] (NodeList.ofList [Node.text "Error: invalid CNR"]),
           Node.elem "table" [] (NodeList.ofList [Node.elem "tr" [] (NodeList.ofList
             [Node.elem "td" [] (NodeList.ofList [Node.text "Case Status"]),
              Node.elem "td" [] (NodeList.ofList [Node.text "Pending"])])])])) "X")
      = some (Val.s "search_failed")
    ∧ statusOf (parse_search_results
        (Node.elem "html" [] (NodeList.ofList
          [Node.elem "table" [] (NodeList.ofList [Node.elem "tr" [] (NodeList.ofList
            [Node.elem "td" [] (NodeList.ofList [Node.text "Case Status"]),
             Node.elem "td" [] (NodeList.ofList [Node.text "Pending"])])])])) "X")
      = some (Val.s "case_found")
    ∧ statusOf (parse_search_results
        (Node.elem "html" [] (NodeList.ofList [Node.elem "p" [] (NodeList.ofList
          [Node.text "Welcome to the district court portal"])])) "X")
      = some (Val.s "no_case_data")
    ∧ statusOf (parse_search_results
        (Node.elem "html" [] (NodeList.ofList [Node.elem "p" [] (NodeList.ofList
          [Node.text "hello"])])) "X")
      = some (Val.s "unexpected_response") :=
  ⟨(c2_classifier_first_match _ "X").1 (by decide),
   (c2_classifier_first_match _ "X").2.1 (by decide) (Or.inl (by decide)),
   (c2_classifier_first_match _ "X").2.2.1 (by decide) (by decide) (by decide) (by decide),
   (c2_classifier_first_match _ "X").2.2.2 (by decide) (by decide) (by decide) (by decide)⟩

/-- C3: no surfaced SearchFailed message and no surfaced status indicator
contains a brace or one of the CSS property patterns, every element the
keyword scans run over survives `script`/`style` removal, and the message
actually surfaced is the first clean one (hence CSS-free). -/
theorem c3_css_debris_never_surfaced (doc : Node) (cnr : String) :
    (∀ m ∈ clean_error_msgs doc, hasCssDebris m = false)
    ∧ (∀ m ∈ status_indicators doc, hasCssDebris m = false)
    ∧ (∀ n ∈ descendants (stripNode doc), isScriptStyle n = false)
    ∧ (∀ msg rest, clean_error_msgs doc = msg :: rest →
        dget (parse_search_results doc cnr) "message"
          = some (Val.s ("Search failed: " ++ msg))
        ∧ hasCssDebris msg = false) := by
  refine ⟨?_, ?_, stripNode_clean doc, ?_⟩
  · intro m hm
    unfold clean_error_msgs at hm
    have hp := (List.mem_filter.mp hm).2
    cases hc : hasCssDebris m with
    | false => rfl
    | true => rw [hc] at hp; cases hp
  · intro m hm
    unfold status_indicators at hm
    have hp := (List.mem_filter.mp hm).2
    cases hc : hasCssDebris m with
    | false => rfl
    | true => rw [hc] at hp; cases hp
  · intro msg rest h
    constructor
    · unfold parse_search_results
      rw [h]
      rfl
    · have hmem : msg ∈ clean_error_msgs doc := by
        rw [h]
        exact List.mem_cons_self _ _
      unfold clean_error_msgs at hmem
      have hp := (List.mem_filter.mp hmem).2
      cases hc : hasCssDebris msg with
      | false => rfl
      | true => rw [hc] at hp; cases hp

/-- A style sheet full of CSS property text does not surface, while the
clean message "Error: invalid CNR" does, exactly as the spec's scenario
demands. -/
theorem c3_css_debris_never_surfaced_witness :
    dget (parse_search_results
        (Node.elem "html" [] (NodeList.ofList
          [Node.elem "style" [] (NodeList.ofList
             [Node.text "body \x7b color: red; font-family: Arial \x7d"]),
           Node.elem "div" [] (NodeList.ofList [Node.text "Error: invalid CNR"])])) "X")
      "message"
      = some (Val.s "Search failed: Error: invalid CNR")
    ∧ hasCssDebris "Error: invalid CNR" = false :=
  (c3_css_debris_never_surfaced
      (Node.elem "html" [] (NodeList.ofList
        [Node.elem "style" [] (NodeList.ofList
           [Node.text "body \x7b color: red; font-family: Arial \x7d"]),
         Node.elem "div" [] (NodeList.ofList [Node.text "Error: invalid CNR"])])) "X").2.2.2
    "Error: invalid CNR" [] (by decide)

/-! ### Claim C1: the Form Submitter's field map -/

/-- C1 counterexample form: its one hidden input reuses the search-key
field name `cino` with its own value `OLD`. -/
def formHiddenCino : Node :=
  Node.elem "form" [("action", "case_status")] (NodeList.ofList
    [Node.elem "input" [("type", "hidden"), ("name", "cino"), ("value", "OLD")]
       (NodeList.ofList [])])

/-- C1 counterexample: the claim says the submitted `cino` field holds the
caller-supplied CNR even when the original form carries a different value
under that name; on a form with hidden input `cino = OLD` and caller CNR
`NEW`, the submitted map holds `OLD`, not `NEW` — the hidden overlay wins. -/
theorem c1_caller_value_overwritten :
    lookupS (build_form_data "NEW" "CAP" formHiddenCino) "cino" = some "OLD"
    ∧ lookupS (build_form_data "NEW" "CAP" formHiddenCino) "cino" ≠ some "NEW" := by
  constructor
  · decide
  · decide

/-- C1 amended: every hidden input's field name appears in the submitted
map bound to the value of the last hidden input carrying that name (so
hidden fields are forwarded from the form, never from the caller), and the
search-key field `cino` and verification-token field `fcaptcha_code` hold
the caller-supplied values unless a hidden input of the same name exists,
in which case that hidden input's original value wins. -/
theorem c1_form_data_amended (form : Node) (cnr cap : String) :
    (∀ p ∈ hidden_fields form, ∃ v,
       lookupS (build_form_data cnr cap form) p.1 = some v
       ∧ lastVal (hidden_fields form) p.1 = some v
       ∧ (p.1, v) ∈ hidden_fields form)
    ∧ (lookupS (build_form_data cnr cap form) "cino"
         = match lastVal (hidden_fields form) "cino" with
           | some w => some w
           | Option.none => some cnr)
    ∧ (lookupS (build_form_data cnr cap form) "fcaptcha_code"
         = match lastVal (hidden_fields form) "fcaptcha_code" with
           | some w => some w
           | Option.none => some cap) := by
  refine ⟨?_, ?_, ?_⟩
  · intro p hp
    obtain ⟨v, hv⟩ := lastVal_isSome_of_mem _ p hp
    refine ⟨v, ?_, hv, lastVal_mem _ _ _ hv⟩
    rw [build_form_data_lookup, hv]
  · rw [build_form_data_lookup]
    obtain h | ⟨w, h⟩ := Option.eq_none_or_eq_some (lastVal (hidden_fields form) "cino")
    · rw [h]
      rfl
    · rw [h]
  · rw [build_form_data_lookup]
    obtain h | ⟨w, h⟩ := Option.eq_none_or_eq_some (lastVal (hidden_fields form) "fcaptcha_code")
    · rw [h]
      rfl
    · rw [h]

/-- C1 amended, run on a form whose hidden inputs are a session token and
a conflicting `cino`: the session token is forwarded unchanged and the
hidden `cino` wins over the caller's. -/
theorem c1_form_data_amended_witness :
    (∃ v, lookupS (build_form_data "NEW" "CAP"
        (Node.elem "form" [] (NodeList.ofList
          [Node.elem "input" [("type", "hidden"), ("name", "sess"), ("value", "abc")]
             (NodeList.ofList []),
           Node.elem "input" [("type", "hidden"), ("name", "cino"), ("value", "OLD")]
             (NodeList.ofList [])]))) "sess" = some v
      ∧ lastVal (hidden_fields
          (Node.elem "form" [] (NodeList.ofList
            [Node.elem "input" [("type", "hidden"), ("name", "sess"), ("value", "abc")]
               (NodeList.ofList []),
             Node.elem "input" [("type", "hidden"), ("name", "cino"), ("value", "OLD")]
               (NodeList.ofList [])]))) "sess" = some v
      ∧ ("sess", v) ∈ hidden_fields
          (Node.elem "form" [] (NodeList.ofList
            [Node.elem "input" [("type", "hidden"), ("name", "sess"), ("value", "abc")]
               (NodeList.ofList []),
             Node.elem "input" [("type", "hidden"), ("name", "cino"), ("value", "OLD")]
               (NodeList.ofList [])]))) :=
  (c1_form_data_amended
      (Node.elem "form" [] (NodeList.ofList
        [Node.elem "input" [("type", "hidden"), ("name", "sess"), ("value", "abc")]
           (NodeList.ofList []),
         Node.elem "input" [("type", "hidden"), ("name", "cino"), ("value", "OLD")]
           (NodeList.ofList [])])) "NEW" "CAP").1
    ("sess", "abc") (by decide)

/-! ### Claim C8: table rows and the CaseFound payload -/

theorem parse_case_found_payload (doc : Node) (cnr : String) :
    statusOf (parse_search_results doc cnr) = some (Val.s "case_found") →
    dget (parse_search_results doc cnr) "case_details"
      = some (Val.dict ((case_info doc).map (fun p => (p.1, Val.s p.2))))
    ∧ dget (parse_search_results doc cnr) "status_indicators"
      = some (Val.vlist (((status_indicators doc).take 5).map Val.s)) := by
  unfold parse_search_results
  cases clean_error_msgs doc with
  | cons m rest =>
    intro h
    exfalso
    simp [statusOf, dget] at h
  | nil =>
    by_cases h1 : (!(case_info doc).isEmpty || !(status_indicators doc).isEmpty) = true
    · rw [if_pos h1]
      intro h
      exact ⟨rfl, rfl⟩
    · rw [if_neg h1]
      by_cases h2 : (strContains (page_text doc) "case"
          || strContains (page_text doc) "court") = true
      · rw [if_pos h2]
        intro h
        exfalso
        simp [statusOf, dget] at h
      · rw [if_neg h2]
        intro h
        exfalso
        simp [statusOf, dget] at h

/-- C8 counterexample document: two rows share the first-cell text
"Case Status" with different second cells. -/
def docDupRows : Node :=
  Node.elem "html" [] (NodeList.ofList
    [Node.elem "table" [] (NodeList.ofList
      [Node.elem "tr" [] (NodeList.ofList
         [Node.elem "td" [] (NodeList.ofList [Node.text "Case Status"]),
          Node.elem "td" [] (NodeList.ofList [Node.text "Pending"])]),
       Node.elem "tr" [] (NodeList.ofList
         [Node.elem "td" [] (NodeList.ofList [Node.text "Case Status"]),
          Node.elem "td" [] (NodeList.ofList [Node.text "Disposed"])])])])

/-- C8 counterexample: the row `["Case Status", "Pending"]` is a matching
row of a `case_found` document, yet the payload does not map
"case status" to "Pending" — the later row's "Disposed" overwrote it, so
the claim's per-row mapping property fails. -/
theorem c8_row_mapping_overwritten :
    case_rows docDupRows = [("case status", "Pending"), ("case status", "Disposed")]
    ∧ statusOf (parse_search_results docDupRows "X") = some (Val.s "case_found")
    ∧ lookupS (case_info docDupRows) "case status" = some "Disposed"
    ∧ lookupS (case_info docDupRows) "case status" ≠ some "Pending" := by
  refine ⟨by decide, by rfl, by decide, by decide⟩

/-- C8 amended: every matching table row (≥2 cells, first cell containing
a case keyword) contributes an entry keyed by its lowercased stripped
first-cell text, whose value is the second-cell text of the last matching
row with that key; the CaseFound payload carries exactly this map and at
most 5 status indicators. -/
theorem c8_case_rows_amended (doc : Node) (cnr : String) :
    (∀ p ∈ case_rows doc, ∃ v,
       lookupS (case_info doc) p.1 = some v
       ∧ lastVal (case_rows doc) p.1 = some v
       ∧ (p.1, v) ∈ case_rows doc)
    ∧ (statusOf (parse_search_results doc cnr) = some (Val.s "case_found") →
       dget (parse_search_results doc cnr) "case_details"
         = some (Val.dict ((case_info doc).map (fun p => (p.1, Val.s p.2))))
       ∧ dget (parse_search_results doc cnr) "status_indicators"
         = some (Val.vlist (((status_indicators doc).take 5).map Val.s))
       ∧ (((status_indicators doc).take 5).map Val.s).length ≤ 5) := by
  constructor
  · intro p hp
    obtain ⟨v, hv⟩ := lastVal_isSome_of_mem _ p hp
    refine ⟨v, ?_, hv, lastVal_mem _ _ _ hv⟩
    rw [case_info_eq_rows, foldl_insert_lookup, hv]
  · intro h
    obtain ⟨hd, hs⟩ := parse_case_found_payload doc cnr h
    refine ⟨hd, hs, ?_⟩
    rw [List.length_map, List.length_take]
    exact Nat.min_le_left _ _

/-- C8 amended, run on the spec's scenario: a single row
`["Case Status", "Pending"]` yields the entry "case status" → "Pending". -/
theorem c8_case_rows_amended_witness :
    (∃ v, lookupS (case_info
        (Node.elem "html" [] (NodeList.ofList
          [Node.elem "table" [] (NodeList.ofList
            [Node.elem "tr" [] (NodeList.ofList
               [Node.elem "td" [] (NodeList.ofList [Node.text "Case Status"]),
                Node.elem "td" [] (NodeList.ofList [Node.text "Pending"])])])])))
        "case status" = some v
      ∧ lastVal (case_rows
          (Node.elem "html" [] (NodeList.ofList
            [Node.elem "table" [] (NodeList.ofList
              [Node.elem "tr" [] (NodeList.ofList
                 [Node.elem "td" [] (NodeList.ofList [Node.text "Case Status"]),
                  Node.elem "td" [] (NodeList.ofList [Node.text "Pending"])])])])))
          "case status" = some v
      ∧ ("case status", v) ∈ case_rows
          (Node.elem "html" [] (NodeList.ofList
            [Node.elem "table" [] (NodeList.ofList
              [Node.elem "tr" [] (NodeList.ofList
                 [Node.elem "td" [] (NodeList.ofList [Node.text "Case Status"]),
                  Node.elem "td" [] (NodeList.ofList [Node.text "Pending"])])])])))
    ∧ lookupS (case_info
        (Node.elem "html" [] (NodeList.ofList
          [Node.elem "table" [] (NodeList.ofList
            [Node.elem "tr" [] (NodeList.ofList
               [Node.elem "td" [] (NodeList.ofList [Node.text "Case Status"]),
                Node.elem "td" [] (NodeList.ofList [Node.text "Pending"])])])])))
        "case status" = some "Pending" :=
  ⟨(c8_case_rows_amended
      (Node.elem "html" [] (NodeList.ofList
        [Node.elem "table" [] (NodeList.ofList
          [Node.elem "tr" [] (NodeList.ofList
             [Node.elem "td" [] (NodeList.ofList [Node.text "Case Status"]),
              Node.elem "td" [] (NodeList.ofList [Node.text "Pending"])])])])) "X").1
    ("case status", "Pending") (by decide), by decide⟩

/-! ### Claim C4: the Search Form Locator requires all three elements -/

/-- C4: if the fetched page lacks the `cino` input, the
`fcaptcha_code` input or a form element, the locator yields nothing and
`search_by_cnr` returns the not-found error record (no form descriptor,
no challenge); conversely a located form implies all three are present. -/
theorem c4_locator_all_three_required (soup : Node) :
    ((findFirst (isInputNamed "cino") soup = Option.none
      ∨ findFirst (isInputNamed "fcaptcha_code") soup = Option.none
      ∨ findFirst (isTag "form") soup = Option.none) →
      locate_form soup = Option.none
      ∧ ∀ (cnr date : String) (cc : Option String)
          (p g : String → List (String × String) → Except String Resp),
          search_by_cnr cnr date cc ⟨Except.ok (200, soup), p, g⟩
            = errRecord "CNR search form not found on services page")
    ∧ (locate_form soup ≠ Option.none →
       findFirst (isInputNamed "cino") soup ≠ Option.none
       ∧ findFirst (isInputNamed "fcaptcha_code") soup ≠ Option.none
       ∧ findFirst (isTag "form") soup ≠ Option.none) := by
  constructor
  · intro hd
    refine ⟨?_, ?_⟩
    · unfold locate_form
      rcases hd with h | h | h
      · rw [h]
      · rcases hA : findFirst (isInputNamed "cino") soup with _ | a
        · rfl
        · rw [h]
      · rcases hA : findFirst (isInputNamed "cino") soup with _ | a
        · rfl
        · rcases hB : findFirst (isInputNamed "fcaptcha_code") soup with _ | b
          · rfl
          · rw [h]
    · intro cnr date cc p g
      show (match findFirst (isInputNamed "cino") soup,
                  findFirst (isInputNamed "fcaptcha_code") soup,
                  findFirst (isTag "form") soup with
        | some _, some _, some form =>
          if pyTruthyS cc then
            submit_cnr_search cnr (cc.getD "") form
              ⟨Except.ok (200, soup), p, g⟩
          else
            [("status", Val.s "captcha_required"), ("cnr", Val.s cnr),
             ("date", Val.s date), ("connection", Val.s "success"),
             ("website_accessible", Val.b true), ("search_form_found", Val.b true),
             ("captcha_required", Val.b true),
             ("captcha_url", match captcha_url soup with
                             | some u => Val.s u
                             | Option.none => Val.noneV),
             ("message", Val.s "CNR search form found - captcha required"),
             ("new_scraper", Val.b true)]
        | _, _, _ => errRecord "CNR search form not found on services page")
        = errRecord "CNR search form not found on services page"
      rcases hd with h | h | h
      · rw [h]
      · rcases hA : findFirst (isInputNamed "cino") soup with _ | a
        · rfl
        · rw [h]
      · rcases hA : findFirst (isInputNamed "cino") soup with _ | a
        · rfl
        · rcases hB : findFirst (isInputNamed "fcaptcha_code") soup with _ | b
          · rfl
          · rw [h]
  · intro hne
    unfold locate_form at hne
    rcases hA : findFirst (isInputNamed "cino") soup with _ | a
    · exfalso
      rw [hA] at hne
      exact hne rfl
    · rcases hB : findFirst (isInputNamed "fcaptcha_code") soup with _ | b
      · exfalso
        rw [hA, hB] at hne
        exact hne rfl
      · rcases hC : findFirst (isTag "form") soup with _ | f
        · exfalso
          rw [hA, hB, hC] at hne
          exact hne rfl
        · exact ⟨fun h => Option.noConfusion h, fun h => Option.noConfusion h,
            fun h => Option.noConfusion h⟩

/-- C4 on a concrete page that has a form and a captcha input but no
`cino` input: the locator reports nothing and the search returns the
not-found error record. -/
theorem c4_locator_all_three_required_witness :
    locate_form (Node.elem "html" [] (NodeList.ofList
        [Node.elem "form" [] (NodeList.ofList
          [Node.elem "input" [("name", "fcaptcha_code")] (NodeList.ofList [])])]))
      = Option.none
    ∧ search_by_cnr "CNR1234567890" "01-01-2024" Option.none
        ⟨Except.ok (200, Node.elem "html" [] (NodeList.ofList
           [Node.elem "form" [] (NodeList.ofList
             [Node.elem "input" [("name", "fcaptcha_code")] (NodeList.ofList [])])])),
         fun _ _ => Except.error "down", fun _ _ => Except.error "down"⟩
      = errRecord "CNR search form not found on services page" :=
  ⟨((c4_locator_all_three_required
      (Node.elem "html" [] (NodeList.ofList
        [Node.elem "form" [] (NodeList.ofList
          [Node.elem "input" [("name", "fcaptcha_code")] (NodeList.ofList [])])]))).1
      (Or.inl rfl)).1,
   ((c4_locator_all_three_required
      (Node.elem "html" [] (NodeList.ofList
        [Node.elem "form" [] (NodeList.ofList
          [Node.elem "input" [("name", "fcaptcha_code")] (NodeList.ofList [])])]))).1
      (Or.inl rfl)).2 "CNR1234567890" "01-01-2024" Option.none
      (fun _ _ => Except.error "down") (fun _ _ => Except.error "down")⟩

/-! ### Claim C5: the Listing Normalizer's two success shapes -/

/-- C5: on a captcha_required-shaped outcome (connection success plus
captcha flag) the normalizer selects `captcha_required` with the target
date and status lines and no `page_title` field; on a connected-shaped
outcome (connection success, no captcha flag, website accessible) it
selects `connected` with the target date and status lines and no
`captcha_status` field.  `get_case_listing` is a pure function of its
arguments: it performs no network access. -/
theorem c5_listing_normalizer_shapes (sp : List (String × Val)) (td : String) :
    (pyEqStr (dget sp "connection") "success" = true →
     truthyOpt (dget sp "captcha_required") = true →
       statusOf (get_case_listing sp td) = some (Val.s "captcha_required")
       ∧ dget (get_case_listing sp td) "date" = some (Val.s td)
       ∧ dget (get_case_listing sp td) "message"
           = some (Val.s "eCourts search form found but requires captcha verification")
       ∧ dget (get_case_listing sp td) "website_status"
           = some (Val.s "âœ… Connected to eCourts Services")
       ∧ dget (get_case_listing sp td) "page_title" = Option.none)
    ∧ (pyEqStr (dget sp "connection") "success" = true →
       truthyOpt (dget sp "captcha_required") = false →
       truthyOpt (dget sp "website_accessible") = true →
         statusOf (get_case_listing sp td) = some (Val.s "connected")
         ∧ dget (get_case_listing sp td) "date" = some (Val.s td)
         ∧ dget (get_case_listing sp td) "message"
             = some (Val.s "Successfully connected to eCourts website")
         ∧ dget (get_case_listing sp td) "website_status"
             = some (Val.s "âœ… Connected to eCourts")
         ∧ dget (get_case_listing sp td) "captcha_status" = Option.none) := by
  constructor
  · intro h1 h2
    unfold get_case_listing
    rw [if_pos h1, if_pos h2]
    exact ⟨rfl, rfl, rfl, rfl, rfl⟩
  · intro h1 h2 h3
    unfold get_case_listing
    rw [if_pos h1, if_neg (by simp [h2]), if_pos h3]
    exact ⟨rfl, rfl, rfl, rfl, rfl⟩

/-- C5 on the two concrete outcome shapes. -/
theorem c5_listing_normalizer_shapes_witness :
    (statusOf (get_case_listing
        [("connection", Val.s "success"), ("captcha_required", Val.b true)] "01-01-2024")
      = some (Val.s "captcha_required")
     ∧ dget (get_case_listing
        [("connection", Val.s "success"), ("captcha_required", Val.b true)] "01-01-2024")
        "page_title" = Option.none)
    ∧ (statusOf (get_case_listing
        [("connection", Val.s "success"), ("website_accessible", Val.b true)] "01-01-2024")
      = some (Val.s "connected")
     ∧ dget (get_case_listing
        [("connection", Val.s "success"), ("website_accessible", Val.b true)] "01-01-2024")
        "captcha_status" = Option.none) :=
  ⟨⟨((c5_listing_normalizer_shapes
      [("connection", Val.s "success"), ("captcha_required", Val.b true)]
      "01-01-2024").1 rfl rfl).1,
    ((c5_listing_normalizer_shapes
      [("connection", Val.s "success"), ("captcha_required", Val.b true)]
      "01-01-2024").1 rfl rfl).2.2.2.2⟩,
   ⟨((c5_listing_normalizer_shapes
      [("connection", Val.s "success"), ("website_accessible", Val.b true)]
      "01-01-2024").2 rfl rfl rfl).1,
    ((c5_listing_normalizer_shapes
      [("connection", Val.s "success"), ("website_accessible", Val.b true)]
      "01-01-2024").2 rfl rfl rfl).2.2.2.2⟩⟩

/-! ### Claim C6: every core operation returns a tagged record -/

theorem statusOf_submit (cnr cc : String) (form : Node) (net : Net) :
    statusOf (submit_cnr_search cnr cc form net) = some (Val.s "error")
    ∨ statusOf (submit_cnr_search cnr cc form net) = some (Val.s "search_failed")
    ∨ statusOf (submit_cnr_search cnr cc form net) = some (Val.s "case_found")
    ∨ statusOf (submit_cnr_search cnr cc form net) = some (Val.s "no_case_data")
    ∨ statusOf (submit_cnr_search cnr cc form net) = some (Val.s "unexpected_response") := by
  unfold submit_cnr_search
  split
  · left; rfl
  · split
    · rcases statusOf_parse _ cnr with h | h | h | h
      · right; left; exact h
      · right; right; left; exact h
      · right; right; right; left; exact h
      · right; right; right; right; exact h
    · left; rfl

theorem statusOf_search_by_cnr (cnr date : String) (cc : Option String) (net : Net) :
    statusOf (search_by_cnr cnr date cc net) = some (Val.s "error")
    ∨ statusOf (search_by_cnr cnr date cc net) = some (Val.s "captcha_required")
    ∨ statusOf (search_by_cnr cnr date cc net) = some (Val.s "search_failed")
    ∨ statusOf (search_by_cnr cnr date cc net) = some (Val.s "case_found")
    ∨ statusOf (search_by_cnr cnr date cc net) = some (Val.s "no_case_data")
    ∨ statusOf (search_by_cnr cnr date cc net) = some (Val.s "unexpected_response") := by
  unfold search_by_cnr
  split
  · left; rfl
  · split
    · split
      · split
        · rcases statusOf_submit cnr _ _ net with h | h | h | h | h
          · left; exact h
          · right; right; left; exact h
          · right; right; right; left; exact h
          · right; right; right; right; left; exact h
          · right; right; right; right; right; exact h
        · right; left; rfl
      · left; rfl
    · left; rfl

theorem statusOf_case_details (ct cn cy date : String) (net : Net) :
    statusOf (search_by_case_details ct cn cy date net) = some (Val.s "found")
    ∨ statusOf (search_by_case_details ct cn cy date net) = some (Val.s "error") := by
  unfold search_by_case_details
  split
  · right; rfl
  · split
    · left; rfl
    · right; rfl

theorem statusOf_listing (sp : List (String × Val)) (td : String) :
    statusOf (get_case_listing sp td) = some (Val.s "captcha_required")
    ∨ statusOf (get_case_listing sp td) = some (Val.s "connected")
    ∨ statusOf (get_case_listing sp td) = some (Val.s "connection_failed") := by
  unfold get_case_listing
  split
  · split
    · left; rfl
    · split
      · right; left; rfl
      · right; right; rfl
  · right; right; rfl

/-- C6: the three public core operations are total functions of their
inputs and the observed network, always returning a record whose `status`
tag lies in the fixed taxonomy, and a raised network exception (the
`Except.error` branch of the network) is converted into the `error`
record carrying the exception's message — it never propagates. -/
theorem c6_no_exception_escapes :
    (∀ (cnr date : String) (cc : Option String) (net : Net),
       statusOf (search_by_cnr cnr date cc net) = some (Val.s "error")
       ∨ statusOf (search_by_cnr cnr date cc net) = some (Val.s "captcha_required")
       ∨ statusOf (search_by_cnr cnr date cc net) = some (Val.s "search_failed")
       ∨ statusOf (search_by_cnr cnr date cc net) = some (Val.s "case_found")
       ∨ statusOf (search_by_cnr cnr date cc net) = some (Val.s "no_case_data")
       ∨ statusOf (search_by_cnr cnr date cc net) = some (Val.s "unexpected_response"))
    ∧ (∀ (cnr date e : String) (cc : Option String)
         (p g : String → List (String × String) → Except String Resp),
       search_by_cnr cnr date cc ⟨Except.error e, p, g⟩ = errRecord e)
    ∧ (∀ (ct cn cy date : String) (net : Net),
       statusOf (search_by_case_details ct cn cy date net) = some (Val.s "found")
       ∨ statusOf (search_by_case_details ct cn cy date net) = some (Val.s "error"))
    ∧ (∀ (ct cn cy date e : String)
         (p g : String → List (String × String) → Except String Resp),
       search_by_case_details ct cn cy date ⟨Except.error e, p, g⟩ = errRecord e)
    ∧ (∀ (sp : List (String × Val)) (td : String),
       statusOf (get_case_listing sp td) = some (Val.s "captcha_required")
       ∨ statusOf (get_case_listing sp td) = some (Val.s "connected")
       ∨ statusOf (get_case_listing sp td) = some (Val.s "connection_failed")) :=
  ⟨fun cnr date cc net => statusOf_search_by_cnr cnr date cc net,
   fun _ _ _ _ _ _ => rfl,
   fun ct cn cy date net => statusOf_case_details ct cn cy date net,
   fun _ _ _ _ _ _ _ => rfl,
   fun sp td => statusOf_listing sp td⟩

/-! ### Claim C7: case-detail validation -/

/-- C7: `validate_case_details` accepts exactly when case type, number
and year are all present (nonempty) and the year parses as an integer in
`[1950, current_year]`; it rejects every missing field, every non-integer
year and every out-of-range year. -/
theorem c7_validate_case_details_iff (ct cn cy : String) (currentYear : Int) :
    validate_case_details ct cn cy currentYear = true
      ↔ validate_case_details_spec ct cn cy currentYear := by
  unfold validate_case_details validate_case_details_spec
  constructor
  · intro h
    cases hb : (ct ≠ "" && cn ≠ "" && cy ≠ "" : Bool) with
    | false =>
      rw [if_pos (by rw [hb]; rfl)] at h
      cases h
    | true =>
      rw [if_neg (by rw [hb]; simp)] at h
      have hb' := hb
      simp only [Bool.and_eq_true, decide_eq_true_eq] at hb'
      obtain ⟨⟨h1, h2⟩, h3⟩ := hb'
      refine ⟨h1, h2, h3, ?_⟩
      revert h
      cases hp : pyInt cy with
      | none => intro h; cases h
      | some y =>
        intro h
        have h' : (if y < 1950 || y > currentYear then false else true) = true := h
        by_cases hy : (y < 1950 || y > currentYear : Bool) = true
        · rw [if_pos hy] at h'
          cases h'
        · simp only [Bool.or_eq_true, decide_eq_true_eq, not_or] at hy
          exact ⟨y, rfl, by omega, by omega⟩
  · intro ⟨h1, h2, h3, y, hy, hlo, hhi⟩
    rw [if_neg (by simp [h1, h2, h3]), hy]
    show (if (y < 1950 || y > currentYear : Bool) then false else true) = true
    rw [if_neg (by simp only [Bool.or_eq_true, decide_eq_true_eq]; omega)]

/-! ### Claim C9: the DEMO123 sentinel short-circuits the network -/

/-- C9: a `/search/cnr` request for CNR "DEMO123" yields the same
response whatever the network would answer (the demo branch runs before
any network call), and that response is HTTP 200 carrying the fixed
`case_found` demo record with case number "DEMO/123/2024" and status
"Pending". -/
theorem c9_demo_cnr_network_independent (date_option : String)
    (cc : Option String) (net net2 : Net) (todayStr tomorrowStr : String) :
    api_search_by_cnr "DEMO123" date_option cc net todayStr tomorrowStr
      = api_search_by_cnr "DEMO123" date_option cc net2 todayStr tomorrowStr
    ∧ (api_search_by_cnr "DEMO123" date_option cc net todayStr tomorrowStr).1 = 200
    ∧ dget (api_search_by_cnr "DEMO123" date_option cc net todayStr tomorrowStr).2 "data"
        = some (Val.dict (demo_result "DEMO123"))
    ∧ statusOf (demo_result "DEMO123") = some (Val.s "case_found")
    ∧ (∃ cd, dget (demo_result "DEMO123") "case_details" = some (Val.dict cd)
        ∧ dget cd "case_number" = some (Val.s "DEMO/123/2024")
        ∧ dget cd "status" = some (Val.s "Pending")) :=
  ⟨rfl, rfl, rfl, rfl, ⟨_, rfl, rfl, rfl⟩⟩

/-! ### Claim C10: the cause-list operation cannot fail -/

/-- C10: `download_cause_list` is a pure function that always returns the
`connected` record echoing the given court and date; its status is never
`error`, so the 500 branch of the cause-list route is unreachable through
it and the route always returns the success envelope. -/
theorem c10_cause_list_never_fails (court date : String) :
    statusOf (download_cause_list court date) = some (Val.s "connected")
    ∧ dget (download_cause_list court date) "court" = some (Val.s court)
    ∧ dget (download_cause_list court date) "date" = some (Val.s date)
    ∧ pyEqStr (statusOf (download_cause_list court date)) "error" = false
    ∧ api_get_cause_list_nondemo court date
        = (200, [("success", Val.b true),
                 ("data", Val.dict (download_cause_list court date))]) :=
  ⟨rfl, rfl, rfl, rfl, rfl⟩
